import Mathlib

/-!
Verification of the live-server crate: a shallow embedding of the
path-resolution and file-serving logic of `src/server.rs`, the debounced
watch loop of `src/watcher.rs`, the startup wiring of `src/lib.rs`, and
the directory-listing helpers of `src/listing.rs`, together with theorems
about the behaviour of these functions.  Effectful inputs (the filesystem,
the TCP bind call, the watcher backend) are passed in as explicit oracles;
machine arithmetic is modelled over `Nat` with explicit wraparound where
the source uses fixed-width integers.
-/

namespace LiveServer

/-! ## Watcher (src/src/watcher.rs)

The event vocabulary of the `notify` crate, restricted to the payloads the
watch loop inspects: `Create(_)` and `Remove(_)` are matched with their
payload discarded, `Modify` is matched on its `ModifyKind`, and a
`Name` modification on its `RenameMode`. -/

inductive RenameMode where
  | Any
  | To
  | From
  | Both
  | Other
deriving DecidableEq, Repr

inductive ModifyKind where
  | Any
  | Data
  | Metadata
  | Name (mode : RenameMode)
  | Other
deriving DecidableEq, Repr

inductive EventKind where
  | Any
  | Access
  | Create
  | Modify (kind : ModifyKind)
  | Remove
  | Other
deriving DecidableEq, Repr

/-- A debounced event as delivered to the watch loop: its kind and the
paths it refers to (the loop reads the paths only for logging). -/
structure DebouncedEvent where
  kind : EventKind
  paths : List String
deriving DecidableEq, Repr

/-- The per-event arms of the `match e.event.kind` in `watch`
(src/src/watcher.rs lines 61-98): `Create(_)`, a `Modify` whose kind is
not a rename or whose rename mode is `Both`, and `Remove(_)` set the
`files_changed` flag; every other kind leaves it unchanged. -/
def event_marks_change : EventKind → Bool
  | .Create => true
  | .Modify kind =>
    match kind with
    | .Name mode =>
      match mode with
      | .Both => true
      | _ => false
    | _ => true
  | .Remove => true
  | _ => false

/-- The `files_changed` flag after folding one debounced batch through the
loop body (src/src/watcher.rs lines 58-99): initially false, set to true
by every qualifying event, never reset. -/
def process_batch (events : List DebouncedEvent) : Bool :=
  events.foldl (fun files_changed e => files_changed || event_marks_change e.kind) false

/-- Number of reload broadcasts emitted for one received batch
(src/src/watcher.rs lines 57-110): an error batch only logs; an event
batch broadcasts once iff `files_changed` ended up true. -/
def batch_broadcasts : Except (List String) (List DebouncedEvent) → Nat
  | .error _ => 0
  | .ok events => if process_batch events then 1 else 0

/-! ## Listener creation (src/src/server.rs, `create_listener`) -/

/-- Outcome of `TcpListener::bind`, abstracted: the address was in use, or
the bind failed for another reason carrying its message. -/
inductive BindErr where
  | AddrInUse
  | OtherErr (msg : String)
deriving DecidableEq, Repr

/-- The error message built in the `Err` arm of `create_listener`
(src/src/server.rs lines 53-60). -/
def bind_err_msg (addr : String) : BindErr → String
  | .AddrInUse => "Address " ++ addr ++ " is already in use"
  | .OtherErr msg => "Failed to listen on " ++ addr ++ ": " ++ msg

/-- Embeds `create_listener` (src/src/server.rs lines 29-63) over a bind
oracle: the address is bound once; on success the listener is returned
(the advertised-address formatting on lines 32-50 does not affect the
success or failure of the call and is elided); on failure the function
returns the formatted error message, distinguishing address-in-use. -/
def create_listener (bind : String → Except BindErr Unit) (addr : String) :
    Except String Unit :=
  match bind addr with
  | .ok l => .ok l
  | .error err => .error (bind_err_msg addr err)

/-! ## Startup wiring (src/src/lib.rs, `listen` and `Listener::start`) -/

/-- The `Listener` value produced by `listen`: the canonicalized root and
whether a watcher was created. -/
structure ListenerModel where
  root_path : List String
  has_watcher : Bool
deriving DecidableEq, Repr

/-- Embeds `listen` (src/src/lib.rs lines 111-155) over oracles for its
three effects: binding (via `create_listener`), canonicalizing the root,
and creating the watcher.  Each failure is propagated: in particular when
`watch` is true a watcher-creation failure makes `listen` itself return
that error (line 144, `create_watcher().await?`), so no `Listener` is
produced and `start` is never reached. -/
def listen (bind : String → Except BindErr Unit) (addr : String)
    (canonicalize : Except String (List String))
    (create_watcher : Except String Unit) (watch : Bool) :
    Except String ListenerModel :=
  match create_listener bind addr with
  | .error e => .error e
  | .ok _ =>
    match canonicalize with
    | .error err => .error ("Failed to get absolute path of the root: " ++ err)
    | .ok root_path =>
      if watch then
        match create_watcher with
        | .error e => .error e
        | .ok _ => .ok ⟨root_path, true⟩
      else .ok ⟨root_path, false⟩

/-- Embeds `Listener::start` (src/src/lib.rs lines 55-70) together with
the startup prefix of `watch` (src/src/watcher.rs lines 46-55): when a
watcher is present, the initial recursive subscribe is `.unwrap()`ed, so
its failure panics the watch task and `try_join!` surfaces it as an error
from `start`; the server loop itself is modelled as `Except.ok`. -/
def start (listener : ListenerModel) (subscribe : Except String Unit) :
    Except String Unit :=
  if listener.has_watcher then
    match subscribe with
    | .error e => .error e
    | .ok _ => .ok ()
  else .ok ()

/-- A bind oracle with exactly one busy address: `127.0.0.1:8080` is in
use and every other address (in particular `127.0.0.1:8081`) is free. -/
def busyBind : String → Except BindErr Unit := fun a =>
  if a = "127.0.0.1:8080" then .error BindErr.AddrInUse else .ok ()

/-- A bind oracle for which every address binds successfully. -/
def okBind : String → Except BindErr Unit := fun _ => .ok ()

/-! ## Path model and static_assets (src/src/server.rs lines 98-173)

Paths are lists of components.  The canonical served root (produced by
`tokio::fs::canonicalize` at startup) is a list of plain names; a joined
request path may additionally contain parent-dir components, which Rust
`Path` keeps literally — they are only resolved by the operating system
when the file is opened. -/

/-- A component of a joined path: a parent-dir (`..`) component or a
normal name. -/
inductive PC where
  | pd
  | n (s : String)
deriving DecidableEq, Repr

/-- Splits a character list at a separator character. -/
def splitAux (sep : Char) : List Char → List Char → List String
  | [], acc => [⟨acc.reverse⟩]
  | c :: cs, acc =>
    if c = sep then ⟨acc.reverse⟩ :: splitAux sep cs []
    else splitAux sep cs (c :: acc)

/-- Splits a string at every occurrence of a separator character. -/
def splitChar (sep : Char) (s : String) : List String := splitAux sep s.data []

/-- The relative segments of a request path: split at `/`, dropping the
empty and `.` segments exactly as Rust `Path::components` normalization
does on a non-leading position. -/
def splitSegs (s : String) : List String :=
  (splitChar '/' s).filter (fun seg => !(seg == "" || seg == "."))

/-- A path segment as a component: `..` becomes a parent-dir component,
anything else a normal name. -/
def toPC (seg : String) : PC := if seg = ".." then .pd else .n seg

/-- `root.join(stripped)` (src/src/server.rs line 106) with Rust
`PathBuf::join` semantics: an absolute argument replaces the root,
otherwise its components are appended.  `..` segments are kept as
components; nothing is canonicalized. -/
def joinRoot (root : List String) (stripped : String) : List PC :=
  match stripped.data with
  | '/' :: _ => (splitSegs stripped).map toPC
  | _ => root.map PC.n ++ (splitSegs stripped).map toPC

/-- `path.starts_with(root)` (src/src/server.rs line 108): component-wise
prefix test in which a `..` component is compared literally, never
resolved. -/
def startsWithRoot (root : List String) (p : List PC) : Bool :=
  (root.map PC.n).isPrefixOf p

/-- Operating-system resolution of a path containing `..` components, as
performed when `fs::read` opens the file: each parent-dir component
removes the name before it (a no-op at the filesystem root).  Symlinks
are not modelled; the source never canonicalizes either. -/
def resolveDots (p : List PC) : List String :=
  p.foldl (fun acc c => match c with | .n s => acc ++ [s] | .pd => acc.dropLast) []

/-- Whether a fully resolved path lies inside the served root. -/
def under_root (root resolved : List String) : Bool := root.isPrefixOf resolved

/-- The error kind of a failed read, as inspected by static_assets
(src/src/server.rs lines 143-146): not-found versus anything else. -/
inductive ErrKind where
  | NotFound
  | OtherError
deriving DecidableEq, Repr

/-- A filesystem error: its kind and its display message. -/
structure IOErr where
  kind : ErrKind
  msg : String
deriving DecidableEq, Repr

/-- File contents, tracking only whether they form valid UTF-8 text
(`String::from_utf8` on line 160 is the sole consumer of the raw bytes). -/
inductive Bytes where
  | utf8 (text : String)
  | invalid
deriving DecidableEq, Repr

/-- The filesystem oracle: the three operating-system queries static_assets
makes, each keyed by the raw (unresolved) component path it is given. -/
structure FSModel where
  is_dir : List PC → Bool
  try_exists : List PC → Bool
  read : List PC → Except IOErr Bytes

/-- Where a request is routed after path resolution
(src/src/server.rs lines 103-124): rejected, delegated to the directory
listing, or served from a file path. -/
inductive Route where
  | reject
  | listing (dir : List PC)
  | file (p : List PC)
deriving DecidableEq, Repr

/-- The path-resolution prefix of static_assets (src/src/server.rs lines
103-124): strip the first character of the URI path, join to the root,
reject unless the join starts with the root, then serve a directory's
`index.html` when present, delegate directories without one to the
listing, and serve anything else as a file. -/
def route (root : List String) (fs : FSModel) (reqPath : String) : Route :=
  let stripped : String := ⟨reqPath.data.drop 1⟩
  let path := joinRoot root stripped
  if startsWithRoot root path then
    if fs.is_dir path then
      if fs.try_exists (path ++ [PC.n "index.html"]) then
        Route.file (path ++ [PC.n "index.html"])
      else Route.listing path
    else Route.file path
  else Route.reject

/-- Extension of the final path component, per Rust `Path::extension`:
the part of the file name after its last dot (no dot, no extension; a
name that is all extension is not special-cased here). -/
def fileExt (p : List PC) : String :=
  match p.getLast? with
  | some (PC.n name) =>
    match splitChar '.' name with
    | [] => ""
    | [_] => ""
    | parts => parts.getLastD ""
  | _ => ""

/-- Modelled from the external `mime_guess` crate used on line 128
(`first_or_text_plain`): the extension table is restricted to the
extensions this development exercises; everything else falls back to
text/plain. -/
def mime_from_ext : String → String
  | "html" => "text/html"
  | "htm" => "text/html"
  | "css" => "text/css"
  | "js" => "application/javascript"
  | "ico" => "image/x-icon"
  | _ => "text/plain"

/-- The MIME type guessed from a path (src/src/server.rs line 128). -/
def mime_of (p : List PC) : String := mime_from_ext (fileExt p)

/-- Modelled from the spec: `src/templates/websocket.html` is not under
src/; per the spec it is an inline script fragment referencing the
server's advertised host:port that opens a persistent connection and
reloads the page upon receiving any message. -/
def websocketScript (addr : String) : String :=
  "<script>const ws = new WebSocket(\"ws://" ++ addr ++
    "/live-server-ws\"); ws.onmessage = () => location.reload()</script>"

/-- A response body.  `errorPage script err` stands for
`src/templates/error.html` (not under src/) formatted with the reload
script and the error display, as on lines 148-150; `withScript text
script` is a successful HTML body with the fragment appended (line 167);
`listing` marks delegation to `serve_directory_listing`, whose body is
built by the separate listing module and is left opaque here. -/
inductive RespBody where
  | empty
  | raw (b : Bytes)
  | withScript (text script : String)
  | errorPage (script err : String)
  | plain (msg : String)
  | listing (dir : List PC)
deriving DecidableEq, Repr

/-- `internal_err` (src/src/server.rs lines 219-227): a 500 response with
a text/plain content type and the error display as body. -/
def internal_err (msg : String) : Nat × String × RespBody :=
  (500, "text/plain", RespBody.plain msg)

/-- The file-serving tail of static_assets (src/src/server.rs lines
126-172): guess the MIME type, read the file; a read failure yields 404
for not-found and 500 otherwise, with the error page as body when the
guessed type is text/html and an empty body otherwise; on success the
reload fragment is appended iff the type is text/html and watch mode is
on (a non-UTF-8 HTML file then becomes an internal error). -/
def serve_file (watch : Bool) (addr : String) (fs : FSModel) (p : List PC) :
    Nat × String × RespBody :=
  let mime := mime_of p
  match fs.read p with
  | .error err =>
    let status : Nat := match err.kind with | ErrKind.NotFound => 404 | _ => 500
    if mime = "text/html" then
      (status, mime, RespBody.errorPage (websocketScript addr) err.msg)
    else (status, mime, RespBody.empty)
  | .ok file =>
    if mime = "text/html" ∧ watch = true then
      match file with
      | Bytes.utf8 text => (200, mime, RespBody.withScript text (websocketScript addr))
      | Bytes.invalid => internal_err "invalid utf-8 sequence"
    else (200, mime, RespBody.raw file)

/-- `static_assets` (src/src/server.rs lines 98-173): resolve the request
path, reject outside-root joins through `internal_err` with a
permission-denied message, delegate index-less directories to the listing
renderer (its response is the axum default 200 with an HTML content
type), and serve everything else as a file. -/
def static_assets (root : List String) (watch : Bool) (addr : String)
    (fs : FSModel) (reqPath : String) : Nat × String × RespBody :=
  match route root fs reqPath with
  | Route.reject => internal_err "Path is outside of root directory"
  | Route.listing dir => (200, "text/html; charset=utf-8", RespBody.listing dir)
  | Route.file p => serve_file watch addr fs p

/-- Whether the reload script fragment was put into a response body. -/
def has_fragment : RespBody → Bool
  | RespBody.withScript _ _ => true
  | RespBody.errorPage _ _ => true
  | RespBody.empty => false
  | RespBody.raw _ => false
  | RespBody.plain _ => false
  | RespBody.listing _ => false

/-- A filesystem in which nothing is a directory and the only readable
file is `/srv/secret`, addressed through the traversal path
`srv/www/../secret`. -/
def fsSecret : FSModel where
  is_dir := fun _ => false
  try_exists := fun _ => false
  read := fun p =>
    if p = [PC.n "srv", PC.n "www", PC.pd, PC.n "secret"] then
      Except.ok (Bytes.utf8 "TOP SECRET")
    else Except.error ⟨ErrKind.NotFound, "No such file or directory"⟩

/-- A filesystem in which every read fails with not-found. -/
def fsMissing : FSModel where
  is_dir := fun _ => false
  try_exists := fun _ => false
  read := fun _ => Except.error ⟨ErrKind.NotFound, "No such file or directory"⟩

/-- A filesystem in which every read succeeds with a small HTML page. -/
def fsHtmlPage : FSModel where
  is_dir := fun _ => false
  try_exists := fun _ => false
  read := fun _ => Except.ok (Bytes.utf8 "<h1>hi</h1>")

/-! ## Directory listing (src/src/listing.rs) -/

/-- The five-way entry classification (src/src/listing.rs lines 154-161). -/
inductive EntryType where
  | Dir
  | File
  | DirLink
  | FileLink
  | Other
deriving DecidableEq, Repr

/-- `EntryType::value` (src/src/listing.rs lines 168-176): the u8 sort
rank of each kind. -/
def EntryType.value : EntryType → Nat
  | .Dir => 0
  | .DirLink => 1
  | .File => 2
  | .FileLink => 3
  | .Other => 4

/-- The sort on line 41 of src/src/listing.rs:
`entries.sort_by(|(_, a), (_, b)| a.value().cmp(&b.value()))`.  Rust's
`sort_by` is a stable sort by the comparator; it is embedded as the
stable `List.mergeSort` ordered by the same rank. -/
def sort_entries (l : List (String × EntryType)) : List (String × EntryType) :=
  l.mergeSort (fun a b => a.2.value ≤ b.2.value)

/-- Replaces every occurrence of a single character by a replacement
string, as Rust `str::replace(char, &str)` does (single-character
occurrences never overlap, so the replacement is per character). -/
def replaceChar (c : Char) (repl : List Char) : List Char → List Char
  | [] => []
  | x :: xs => (if x = c then repl else [x]) ++ replaceChar c repl xs

/-- `escape_html` (src/src/listing.rs lines 146-152): replace `&`, then
`<`, then `>` by their HTML entities, in that order. -/
def escape_html (s : String) : String :=
  ⟨replaceChar '>' "&gt;".data (replaceChar '<' "&lt;".data
    (replaceChar '&' "&amp;".data s.data))⟩

/-- Whether one character list is a prefix of another. -/
def isPre : List Char → List Char → Bool
  | [], _ => true
  | _ :: _, [] => false
  | p :: ps, c :: cs => p == c && isPre ps cs

/-- One fuel-indexed pass of left-to-right, non-overlapping replacement of
a (non-empty) pattern, as Rust `str::replace(&str, &str)` performs; the
fuel only bounds the recursion and `s.length` steps always suffice. -/
def replaceFuel (pat repl : List Char) : Nat → List Char → List Char
  | 0, s => s
  | _ + 1, [] => []
  | fuel + 1, c :: cs =>
    if isPre pat (c :: cs) then repl ++ replaceFuel pat repl fuel ((c :: cs).drop pat.length)
    else c :: replaceFuel pat repl fuel cs

/-- Rust `str::replace` for string patterns (an empty pattern leaves the
string unchanged; the templates' placeholder patterns are never empty). -/
def strReplace (s pat repl : String) : String :=
  if pat.data.isEmpty then s else ⟨replaceFuel pat.data repl.data s.data.length s.data⟩

/-- `render` (src/src/listing.rs lines 115-117): replace every occurrence
of the braced placeholder of `var` in the template by `value`. -/
def render (template var value : String) : String :=
  strReplace template ("\x7b\x7b " ++ var ++ " \x7d\x7d") value

/-- Modelled from the spec: `src/public/entry.html` is not under src/;
per the spec the row template references the icon, the entry path (as the
link target), the name, the size and the modified time through the same
braced placeholders `render` substitutes. -/
def entryTemplate : String :=
  "<tr><td><a href=\"\x7b\x7b path \x7d\x7d\">\x7b\x7b icon \x7d\x7d \x7b\x7b name \x7d\x7d</a></td><td>\x7b\x7b size \x7d\x7d</td><td>\x7b\x7b modified \x7d\x7d</td></tr>"

/-- Joins path components with `/` separators.  Stands for
`path_to_string_but_readable`, which lives in a part of the crate that is
not under src/; modelled from the spec as the displayable form of the
path. -/
def joinWithSlash : List String → String
  | [] => ""
  | [s] => s
  | s :: rest => s ++ "/" ++ joinWithSlash rest

/-- `entry_to_path` (src/src/listing.rs lines 103-113): the entry path
stripped of the root prefix when possible, rendered with a leading
separator. -/
def entry_to_path (root entryPath : List String) : String :=
  let rel := if root.isPrefixOf entryPath then entryPath.drop root.length else entryPath
  "/" ++ joinWithSlash rel

/-- The per-entry substitutions of the listing loop (src/src/listing.rs
lines 64-87): the icon and the entry path are substituted as-is, while
the name, the formatted size and the formatted time pass through
`escape_html`. -/
def render_entry_row (template icon path name size modified : String) : String :=
  render (render (render (render (render template "icon" icon)
    "path" path) "name" (escape_html name)) "size" (escape_html size))
    "modified" (escape_html modified)

/-- The listing-template substitutions (src/src/listing.rs lines 90-96):
the escaped directory label and the concatenated rows. -/
def render_listing (template dirLabel rows : String) : String :=
  render (render template "directory" (escape_html dirLabel)) "entries" rows

/-- Whether `sub` occurs as a contiguous substring. -/
def containsList (sub : List Char) : List Char → Bool
  | [] => sub.isEmpty
  | c :: cs => isPre sub (c :: cs) || containsList sub cs

/-- Substring test on strings. -/
def contains_sub (sub s : String) : Bool := containsList sub.data s.data

/-! ## Size formatting (src/src/listing.rs lines 125-144) -/

/-- Drops every trailing occurrence of a character, as
`trim_end_matches` does. -/
def trimEndChar (c : Char) (s : String) : String :=
  ⟨(s.data.reverse.dropWhile (fun x => x == c)).reverse⟩

/-- A two-digit rendering of a number below 100, as the fractional part
of `format!` with two decimal places. -/
def twoDigits (m : Nat) : String := if m < 10 then "0" ++ toString m else toString m

/-- `format_float` (src/src/listing.rs lines 139-144) applied to the
exact value `num / den`: `format!` with two decimal places rounds the
value to the nearest hundredth — `(200 * num + den) / (2 * den)`
hundredths in integer arithmetic; exact ties cannot arise for the dyadic
quotients produced by `format_file_size` — and then trailing zeros and a
trailing decimal point are trimmed. -/
def format_float (num den : Nat) : String :=
  let m := (200 * num + den) / (2 * den)
  trimEndChar '.' (trimEndChar '0' (toString (m / 100) ++ "." ++ twoDigits (m % 100)))

/-- Fuel-indexed floor logarithm base 1024. -/
def logFuel : Nat → Nat → Nat
  | 0, _ => 0
  | fuel + 1, m => if m < 1024 then 0 else logFuel fuel (m / 1024) + 1

/-- The floor base-1024 logarithm: the exponent computed on line 133
(`(bytes as f64).log(K as f64).floor()`; at the inputs considered in the
theorems below the f64 computation agrees with the exact value). -/
def ilog1024 (m : Nat) : Nat := logFuel m m

/-- The unit table `UNITS` (src/src/listing.rs line 130). -/
def UNITS : List String := ["B", "KB", "MB", "GB", "TB", "PB", "EB", "ZB", "YB"]

/-- `K.pow(exp)` where `K: u32 = 1024` (src/src/listing.rs line 134):
u32 arithmetic, so the power wraps modulo 2^32 — it is 0 whenever
`exp ≥ 4`. -/
def upow32 (b e : Nat) : Nat := (b ^ e) % (2 ^ 32)

/-- `format_file_size` (src/src/listing.rs lines 125-137).  The f64
steps are modelled exactly: the exponent is the floor base-1024
logarithm, the divisor is the wrapped u32 power, and — since dividing a
positive f64 by 0.0 yields infinity, which `format!` renders as `inf`
and the trims leave unchanged — a zero divisor produces the string
`inf`.  Otherwise the size is `format_float` of the exact quotient. -/
def format_file_size (bytes : Nat) : String :=
  if bytes = 0 then "0 B"
  else
    let exp := ilog1024 bytes
    let d := upow32 1024 exp
    let sizeStr := if d = 0 then "inf" else format_float bytes d
    sizeStr ++ " " ++ UNITS.getD exp ""

/-- The batch of unmatched rename events used as the concrete instance
for the rename-filtering theorem. -/
def unmatchedRenames : List DebouncedEvent :=
  [⟨EventKind.Modify (ModifyKind.Name RenameMode.From), ["/tmp/a"]⟩,
   ⟨EventKind.Modify (ModifyKind.Name RenameMode.To), ["/tmp/b"]⟩,
   ⟨EventKind.Modify (ModifyKind.Name RenameMode.Any), ["/tmp/c"]⟩]

/-! ## Theorems -/

/-- Folding a boolean flag through a list with `||` computes `any`. -/
theorem foldl_or_eq_any {α : Type} (q : α → Bool) :
    ∀ (l : List α) (acc : Bool), l.foldl (fun b e => b || q e) acc = (acc || l.any q)
  | [], acc => by simp
  | x :: xs, acc => by
    simp only [List.foldl_cons, List.any_cons, foldl_or_eq_any q xs, Bool.or_assoc]

/-- Claim C2: a debounced batch broadcasts exactly one reload signal when
it contains at least one qualifying event — a create, a remove, a
non-rename modify, or a rename reported as a matched from/to pair — and
no signal otherwise; qualifying events beyond the first never change the
count, and an error batch broadcasts nothing. -/
theorem watch_batch_single_broadcast :
    (∀ events : List DebouncedEvent,
      batch_broadcasts (Except.ok events) =
        if events.any (fun e => event_marks_change e.kind) then 1 else 0) ∧
    (∀ errs : List String, batch_broadcasts (Except.error errs) = 0) ∧
    event_marks_change EventKind.Create = true ∧
    event_marks_change EventKind.Remove = true ∧
    event_marks_change (EventKind.Modify (ModifyKind.Name RenameMode.Both)) = true ∧
    event_marks_change (EventKind.Modify ModifyKind.Data) = true ∧
    event_marks_change (EventKind.Modify ModifyKind.Metadata) = true ∧
    event_marks_change (EventKind.Modify ModifyKind.Any) = true ∧
    event_marks_change EventKind.Access = false ∧
    event_marks_change EventKind.Any = false ∧
    event_marks_change EventKind.Other = false := by
  refine ⟨fun events => ?_, fun errs => rfl, rfl, rfl, rfl, rfl, rfl, rfl, rfl, rfl, rfl⟩
  simp only [batch_broadcasts, process_batch, foldl_or_eq_any, Bool.false_or]

/-- Claim C10: a debounced batch consisting only of rename events whose
mode is not the matched pair `Both` sets no flag and broadcasts no reload
signal. -/
theorem unmatched_rename_no_broadcast :
    ∀ events : List DebouncedEvent,
      (∀ e ∈ events, ∃ mode, e.kind = EventKind.Modify (ModifyKind.Name mode) ∧
        mode ≠ RenameMode.Both) →
      batch_broadcasts (Except.ok events) = 0 := by
  intro events h
  have hany : events.any (fun e => event_marks_change e.kind) = false := by
    rw [List.any_eq_false]
    intro e he
    obtain ⟨mode, hk, hne⟩ := h e he
    rw [hk]
    cases mode
    · simp [event_marks_change]
    · simp [event_marks_change]
    · simp [event_marks_change]
    · exact absurd rfl hne
    · simp [event_marks_change]
  simp [batch_broadcasts, process_batch, foldl_or_eq_any, hany]

/-- Witness for C10: a concrete batch of three unmatched rename events
(`From`, `To`, `Any`) broadcasts nothing. -/
theorem unmatched_rename_no_broadcast_witness :
    batch_broadcasts (Except.ok unmatchedRenames) = 0 :=
  unmatched_rename_no_broadcast unmatchedRenames (by
    intro e he
    simp only [unmatchedRenames, List.mem_cons, List.not_mem_nil, or_false] at he
    rcases he with h | h | h <;> subst h <;> exact ⟨_, rfl, by decide⟩)

/-- Claim C1 (code bug): against the root `/srv/www`, the request
`/../secret` passes the `starts_with` confinement check — the `..`
component is compared literally, never resolved — is routed to the file
branch, resolves on the operating system to `/srv/secret`, which lies
outside the root, and that file's contents are served with status 200
instead of the request being rejected. -/
theorem path_traversal_escapes_root :
    startsWithRoot ["srv", "www"] (joinRoot ["srv", "www"] "../secret") = true ∧
    route ["srv", "www"] fsSecret "/../secret" =
      Route.file [PC.n "srv", PC.n "www", PC.pd, PC.n "secret"] ∧
    resolveDots [PC.n "srv", PC.n "www", PC.pd, PC.n "secret"] = ["srv", "secret"] ∧
    under_root ["srv", "www"] ["srv", "secret"] = false ∧
    static_assets ["srv", "www"] false "127.0.0.1:8080" fsSecret "/../secret" =
      (200, "text/plain", RespBody.raw (Bytes.utf8 "TOP SECRET")) := by
  decide

/-- Counterexample for C3: with `127.0.0.1:8080` in use and the next port
`127.0.0.1:8081` free, `create_listener` returns an error instead of
retrying on the incremented port. -/
theorem create_listener_counterexample :
    create_listener busyBind "127.0.0.1:8080" =
      Except.error "Address 127.0.0.1:8080 is already in use" ∧
    busyBind "127.0.0.1:8081" = Except.ok () :=
  ⟨rfl, rfl⟩

/-- Claim C3 (amended): every bind failure — address-in-use included —
aborts `create_listener` with the formatted error; no retry happens: the
result depends only on the bind outcome at the requested address. -/
theorem create_listener_aborts_on_bind_failure :
    (∀ (bind : String → Except BindErr Unit) (addr : String) (e : BindErr),
      bind addr = Except.error e →
      create_listener bind addr = Except.error (bind_err_msg addr e)) ∧
    (∀ (bind₁ bind₂ : String → Except BindErr Unit) (addr : String),
      bind₁ addr = bind₂ addr →
      create_listener bind₁ addr = create_listener bind₂ addr) := by
  constructor
  · intro bind addr e h
    simp [create_listener, h]
  · intro b₁ b₂ addr h
    simp [create_listener, h]

/-- Witness for C3: the busy address produces the address-in-use error
message. -/
theorem create_listener_aborts_witness :
    create_listener busyBind "127.0.0.1:8080" =
      Except.error (bind_err_msg "127.0.0.1:8080" BindErr.AddrInUse) :=
  create_listener_aborts_on_bind_failure.1 busyBind "127.0.0.1:8080" BindErr.AddrInUse rfl

/-- Counterexample for C4: with the bind and the root canonicalization
succeeding, a watcher-creation failure makes `listen` itself return the
error — no `Listener` is produced, so no HTTP server ever starts; and
with a watcher present, a failed initial subscribe makes `start` return
the error rather than degrade to serving without reload. -/
theorem watcher_failure_counterexample :
    listen okBind "127.0.0.1:8080" (Except.ok ["srv", "www"])
      (Except.error "watcher creation failed") true =
      Except.error "watcher creation failed" ∧
    start ⟨["srv", "www"], true⟩ (Except.error "watch subscribe failed") =
      Except.error "watch subscribe failed" :=
  ⟨rfl, rfl⟩

/-- Claim C4 (amended): a watcher-creation failure is not confined to the
watch subsystem — whenever the bind succeeds and watch mode is enabled,
`listen` propagates the watcher error and yields no listener; and
whenever a listener carries a watcher, a failed initial subscribe turns
into an error from `start`. -/
theorem watcher_failure_aborts :
    (∀ (bind : String → Except BindErr Unit) (addr : String)
        (root : List String) (e : String),
      bind addr = Except.ok () →
      listen bind addr (Except.ok root) (Except.error e) true = Except.error e) ∧
    (∀ (l : ListenerModel) (e : String),
      l.has_watcher = true →
      start l (Except.error e) = Except.error e) := by
  constructor
  · intro bind addr root e h
    simp [listen, create_listener, h]
  · intro l e h
    simp [start, h]

/-- Witness for C4: a concrete failing watcher creation aborts `listen`. -/
theorem watcher_failure_aborts_witness :
    listen okBind "127.0.0.1:8080" (Except.ok ["srv", "www"])
      (Except.error "no watcher") true = Except.error "no watcher" :=
  watcher_failure_aborts.1 okBind "127.0.0.1:8080" ["srv", "www"] "no watcher" rfl

/-- Claim C9 (code bug): the anchor values format as specified, but the
divisor `K.pow(exp)` is computed in u32 arithmetic, which wraps to 0 for
every exponent of at least 4 (1024^4 = 2^40 ≡ 0 mod 2^32); therefore any
byte count of a terabyte or more divides by zero and renders as
`inf TB` instead of a 1024-based size. -/
theorem format_file_size_anchors_and_overflow :
    format_file_size 0 = "0 B" ∧
    format_file_size 1024 = "1 KB" ∧
    format_file_size 1536 = "1.5 KB" ∧
    upow32 1024 4 = 0 ∧
    format_file_size (2 ^ 41) = "inf TB" := by
  decide

/-- Claim C6: when reading the resolved target fails, the status is 404
for a not-found error and 500 for any other failure; the body is the
minimal HTML error page when the MIME type guessed from the target path
is text/html, and empty otherwise, with the guessed type kept in the
content-type header. -/
theorem read_error_response :
    ∀ (root : List String) (watch : Bool) (addr : String) (fs : FSModel)
      (req : String) (p : List PC) (err : IOErr),
      route root fs req = Route.file p →
      fs.read p = Except.error err →
      static_assets root watch addr fs req =
        ((if err.kind = ErrKind.NotFound then 404 else 500),
          mime_of p,
          if mime_of p = "text/html" then
            RespBody.errorPage (websocketScript addr) err.msg
          else RespBody.empty) := by
  intro root watch addr fs req p err hroute hread
  obtain ⟨k, m⟩ := err
  cases k <;> simp [static_assets, hroute, serve_file, hread] <;> split <;> rfl

/-- Witness for C6: a missing `.html` target yields a 404 with the HTML
error page carrying the reload script. -/
theorem read_error_response_witness :
    static_assets ["srv", "www"] true "127.0.0.1:8080" fsMissing "/missing.html" =
      (404, "text/html",
        RespBody.errorPage (websocketScript "127.0.0.1:8080") "No such file or directory") :=
  read_error_response ["srv", "www"] true "127.0.0.1:8080" fsMissing "/missing.html"
    [PC.n "srv", PC.n "www", PC.n "missing.html"]
    ⟨ErrKind.NotFound, "No such file or directory"⟩ rfl rfl

/-- Counterexample for C5: with watch mode disabled, a missing `.html`
target still receives the reload script fragment on its 404 error page —
the error branch formats the fragment in without consulting the watch
flag. -/
theorem error_page_fragment_without_watch :
    (static_assets ["srv", "www"] false "127.0.0.1:8080" fsMissing "/missing.html").1 = 404 ∧
    has_fragment
      (static_assets ["srv", "www"] false "127.0.0.1:8080" fsMissing "/missing.html").2.2 = true := by
  decide

/-- Claim C5 (amended): outside the delegated directory-listing branch,
the reload fragment appears in a static_assets body iff the response
content type is text/html and either watch mode is enabled or the
response is an error: successful 200 bodies are injected iff HTML and
watch, while HTML error pages are injected regardless of the watch
flag. -/
theorem fragment_iff_html_and_watch_or_error :
    ∀ (root : List String) (watch : Bool) (addr : String) (fs : FSModel) (req : String),
      (∀ dir, (static_assets root watch addr fs req).2.2 ≠ RespBody.listing dir) →
      (has_fragment (static_assets root watch addr fs req).2.2 = true ↔
        ((static_assets root watch addr fs req).2.1 = "text/html" ∧
          (watch = true ∨ (static_assets root watch addr fs req).1 ≠ 200))) := by
  intro root watch addr fs req hnl
  cases hr : route root fs req with
  | reject => simp [static_assets, hr, internal_err, has_fragment]
  | listing dir =>
    exfalso
    exact hnl dir (by simp [static_assets, hr])
  | file p =>
    simp only [static_assets, hr]
    cases hread : fs.read p with
    | error err =>
      obtain ⟨k, m⟩ := err
      by_cases hm : mime_of p = "text/html"
      · cases k <;> simp [serve_file, hread, hm, has_fragment]
      · cases k <;> simp [serve_file, hread, hm, has_fragment]
    | ok file =>
      by_cases hmw : mime_of p = "text/html" ∧ watch = true
      · obtain ⟨hm, hw⟩ := hmw
        cases file with
        | utf8 text => simp [serve_file, hread, hm, hw, has_fragment]
        | invalid => simp [serve_file, hread, hm, hw, internal_err, has_fragment]
      · simp only [serve_file, hread, if_neg hmw, has_fragment]
        constructor
        · intro h
          exact Bool.noConfusion h
        · rintro ⟨hm, hw | h200⟩
          · exact absurd ⟨hm, hw⟩ hmw
          · exact absurd rfl h200

/-- Witness for C5: a successful HTML page with watch enabled satisfies
the injection equivalence. -/
theorem fragment_iff_witness :
    has_fragment
      (static_assets ["srv", "www"] true "127.0.0.1:8080" fsHtmlPage "/index.html").2.2 = true ↔
      ((static_assets ["srv", "www"] true "127.0.0.1:8080" fsHtmlPage "/index.html").2.1 =
          "text/html" ∧
        (true = true ∨
          (static_assets ["srv", "www"] true "127.0.0.1:8080" fsHtmlPage "/index.html").1 ≠ 200)) :=
  fragment_iff_html_and_watch_or_error ["srv", "www"] true "127.0.0.1:8080" fsHtmlPage
    "/index.html" (fun _ h => RespBody.noConfusion h)

/-- The sort on listing.rs line 41 orders entries by their kind rank. -/
theorem sort_entries_sorted (l : List (String × EntryType)) :
    (sort_entries l).Pairwise (fun a b => a.2.value ≤ b.2.value) := by
  have h := @List.sorted_mergeSort (String × EntryType)
    (fun a b => decide (a.2.value ≤ b.2.value))
    (fun a b c hab hbc => by simp_all; omega)
    (fun a b => by simp [Nat.le_total]) l
  exact h.imp (fun h => by simpa using h)

/-- The sort on listing.rs line 41 is stable: entries of any fixed rank
keep their enumeration order. -/
theorem sort_entries_stable (l : List (String × EntryType)) (r : Nat) :
    (sort_entries l).filter (fun e => e.2.value == r) = l.filter (fun e => e.2.value == r) := by
  have trans : ∀ a b c : String × EntryType,
      decide (a.2.value ≤ b.2.value) → decide (b.2.value ≤ c.2.value) →
      decide (a.2.value ≤ c.2.value) := by
    intro a b c hab hbc
    simp_all
    omega
  have total : ∀ a b : String × EntryType,
      decide (a.2.value ≤ b.2.value) || decide (b.2.value ≤ a.2.value) := by
    intro a b
    simp [Nat.le_total]
  let p : String × EntryType → Bool := fun e => e.2.value == r
  have h1 : List.Sublist (l.filter p) l := List.filter_sublist l
  have h2 : (l.filter p).Pairwise (fun a b => decide (a.2.value ≤ b.2.value)) := by
    apply List.pairwise_of_forall_mem_list
    intro a ha b hb
    have ha2 := (List.mem_filter.mp ha).2
    have hb2 := (List.mem_filter.mp hb).2
    simp only [p, beq_iff_eq] at ha2 hb2
    simp [ha2, hb2]
  have h3 : List.Sublist (l.filter p) (sort_entries l) :=
    List.sublist_mergeSort trans total h2 h1
  have h4 : (l.filter p).filter p = l.filter p := by
    rw [List.filter_filter]
    simp
  have h5 : List.Sublist (l.filter p) ((sort_entries l).filter p) := by
    have := h3.filter p
    rwa [h4] at this
  have h6 : List.Perm ((sort_entries l).filter p) (l.filter p) :=
    (List.mergeSort_perm l _).filter p
  exact (h5.eq_of_length h6.length_eq.symm).symm

/-- Claim C7: rendered listing entries are ordered by the kind rank
Directory(0) < DirectorySymlink(1) < File(2) < FileSymlink(3) < Other(4),
and entries of equal rank keep the relative order of the underlying
directory enumeration — the sort is stable and never re-sorts
alphabetically. -/
theorem listing_sorted_by_rank_stable :
    (∀ l : List (String × EntryType),
      (sort_entries l).Pairwise (fun a b => a.2.value ≤ b.2.value) ∧
      ∀ r : Nat, (sort_entries l).filter (fun e => e.2.value == r) =
        l.filter (fun e => e.2.value == r)) ∧
    EntryType.Dir.value = 0 ∧ EntryType.DirLink.value = 1 ∧
    EntryType.File.value = 2 ∧ EntryType.FileLink.value = 3 ∧
    EntryType.Other.value = 4 :=
  ⟨fun l => ⟨sort_entries_sorted l, fun r => sort_entries_stable l r⟩,
    rfl, rfl, rfl, rfl, rfl⟩

/-- A character of a single-character replacement's output comes from the
replacement string or is an untouched character of the input. -/
theorem mem_replaceChar {x c : Char} {repl : List Char} :
    ∀ {s : List Char}, x ∈ replaceChar c repl s → x ∈ repl ∨ (x ∈ s ∧ x ≠ c)
  | [], h => absurd h (List.not_mem_nil x)
  | a :: as, h => by
    simp only [replaceChar, List.mem_append] at h
    rcases h with h | h
    · by_cases hac : a = c
      · rw [if_pos hac] at h
        exact Or.inl h
      · rw [if_neg hac] at h
        simp only [List.mem_singleton] at h
        subst h
        exact Or.inr ⟨List.mem_cons_self _ _, hac⟩
    · rcases mem_replaceChar h with h | ⟨h1, h2⟩
      · exact Or.inl h
      · exact Or.inr ⟨List.mem_cons_of_mem _ h1, h2⟩

/-- escape_html leaves no raw angle bracket in its output. -/
theorem escape_html_no_angle (s : String) :
    '<' ∉ (escape_html s).data ∧ '>' ∉ (escape_html s).data := by
  constructor
  · intro hmem
    rcases mem_replaceChar hmem with h | ⟨h1, _⟩
    · exact absurd h (by decide)
    · rcases mem_replaceChar h1 with h | ⟨_, hne⟩
      · exact absurd h (by decide)
      · exact hne rfl
  · intro hmem
    rcases mem_replaceChar hmem with h | ⟨_, hne⟩
    · exact absurd h (by decide)
    · exact hne rfl

set_option maxRecDepth 8192 in
/-- Counterexample for C8: a file named `<script>alert(1)</script>`
renders escaped where the row substitutes its name, but the row also
substitutes the rendered entry path — built from the same name — without
escaping, so raw `<script>` markup does appear in the rendered row. -/
theorem listing_path_unescaped :
    contains_sub "<script>"
      (render_entry_row entryTemplate "(icon)"
        (entry_to_path ["root"] ["root", "<script>alert(1)</script>"])
        "<script>alert(1)</script>" "" "") = true ∧
    contains_sub "&lt;script&gt;"
      (render_entry_row entryTemplate "(icon)"
        (entry_to_path ["root"] ["root", "<script>alert(1)</script>"])
        "<script>alert(1)</script>" "" "") = true := by
  decide

/-- Claim C8 (amended): entry names, formatted sizes, formatted times and
the directory label pass through escape_html, whose output carries no raw
`<` or `>`; the rendered entry path, however, is substituted without
escaping, so a filename containing `<script>` still appears as raw markup
inside the rendered row through its path. -/
theorem escape_html_fields_but_not_path :
    (∀ s : String, '<' ∉ (escape_html s).data ∧ '>' ∉ (escape_html s).data) ∧
    escape_html "<script>alert(1)</script>" = "&lt;script&gt;alert(1)&lt;/script&gt;" ∧
    contains_sub "<script>"
      (render_entry_row entryTemplate "(icon)"
        (entry_to_path ["root"] ["root", "a<script>b"]) "a<script>b" "" "") = true :=
  ⟨escape_html_no_angle, by decide, by decide⟩

/-- Witness for C8: the escaped form of a concrete mixed string contains
no raw angle bracket. -/
theorem escape_html_fields_witness :
    '<' ∉ (escape_html "a&b<c>").data :=
  (escape_html_fields_but_not_path.1 "a&b<c>").1

end LiveServer
